import Mathlib

/-!
Shallow embedding of the astro-control repository (three Python modules:
src/plate_solver.py, src/camera/svbony_camera.py, src/mount/ascom_telescope.py).

Python exceptions are modelled as `Except String`, where the string names the
exception class raised ("ConnectionError", "FileNotFoundError", "COMError",
"AttributeError", ...).  Mutable object state (the camera's `self.connected`
flag, the telescope object and its `Connected` property, the mount's motion)
is a record `St` threaded through every call.  The behaviour of the external
world (ASCOM driver, SVBony SDK, filesystem, solve-field executable) is an
oracle record `Env` fixed for a run.  Every device-level call (a call that
reaches the driver/SDK, as opposed to a check inside this repository's code)
is logged in `St.events`, so that properties such as "exactly one disconnect
was issued" are statable as facts about the trace.

Angles are modelled as exact rationals: none of the claims settled here
depends on floating-point rounding.
-/

namespace AstroControl

/-- Device-level calls observable in a run.  `camSetExposure`/`camSetGain`
record driver property writes, `camCapture` the capture of one frame to a
file, `telSlew az alt` the ASCOM call SlewToAltAz(azimuth, altitude), and
`solveAttempt` one invocation of the plate-solving backend on an image. -/
inductive Ev
  | camConnect
  | camSetExposure (exposure : ℚ)
  | camSetGain (gain : ℚ)
  | camCapture (file : String)
  | camDisconnect
  | telConnect
  | telSlew (azimuth altitude : ℚ)
  | telDisconnect
  | solveAttempt (image : String)
  deriving Repr, DecidableEq, BEq

/-- Oracle for the external world: which device operations succeed, whether
the ASCOM driver supports the Gain property, how long a slew stays in motion
(number of Slewing polls that read True), whether solve-field leaves a .wcs
file and what CRVAL1/CRVAL2 it holds, and the remote solver's behaviour. -/
structure Env where
  camConnectRaises : Bool
  gainSupported : Bool
  captureRaises : Bool
  sdkFrameOk : Bool
  camDisconnectRaises : Bool
  chooserDriver : Bool
  telConnectRaises : Bool
  slewRaises : Bool
  slewDuration : ℕ
  telDisconnectRaises : Bool
  wcsExists : Bool
  wcsRa : ℚ
  wcsDec : ℚ
  remoteRaises : Bool
  remoteRa : ℚ
  remoteDec : ℚ
  deriving Repr, DecidableEq

/-- Mutable state of one run: the SVBonyCamera object's fields (use_ascom,
connected, the driver's stored exposure/gain), the telescope controller's
fields (whether self.telescope is a dispatched object, its Connected flag,
how many Slewing polls remain before motion ends), and the event log. -/
structure St where
  useAscom : Bool
  camConnected : Bool
  camExposure : Option ℚ
  camGain : Option ℚ
  telescopeSome : Bool
  telConnected : Bool
  telSlewingRemaining : ℕ
  events : List Ev
  deriving Repr, DecidableEq

/-- Append one device-level call to the run's event log. -/
def emit (e : Ev) (st : St) : St :=
  { st with events := st.events ++ [e] }

/-- Number of occurrences of one event in a log. -/
def countEv (e : Ev) (evs : List Ev) : ℕ :=
  (evs.filter fun x => x == e).length

/-- Commands issued to the mount: the (azimuth, altitude) arguments of every
telSlew event of a log, in order. -/
def slewEvents (evs : List Ev) : List (ℚ × ℚ) :=
  evs.filterMap fun e =>
    match e with
    | .telSlew az alt => some (az, alt)
    | _ => none

/-- Methods defined on class SVBonyCamera (src/camera/svbony_camera.py).
Note that main (src/plate_solver.py lines 65 and 93) calls
camera.init_camera() and camera.close_camera(), neither of which appears
here: in Python both calls raise AttributeError. -/
def svbonyCameraMethods : List String :=
  ["__init__", "connect_ascom_camera", "set_ascom_settings",
   "capture_ascom_image", "connect_sdk_camera", "set_sdk_settings",
   "capture_sdk_image", "connect_camera", "configure_camera",
   "capture_image", "disconnect_camera"]

/-- SVBonyCamera.connect_ascom_camera (svbony_camera.py lines 28-34):
dispatch the driver, set its Connected property (a device-level call that
may raise), then set self.connected = True.  If the driver call raises,
self.connected is never set. -/
def connect_ascom_camera (env : Env) (st : St) : St × Except String Unit :=
  if env.camConnectRaises then (st, .error "COMError")
  else (emit .camConnect { st with camConnected := true }, .ok ())

/-- SVBonyCamera.connect_sdk_camera (lines 66-72): open the SDK camera and
set self.connected = True. -/
def connect_sdk_camera (env : Env) (st : St) : St × Except String Unit :=
  if env.camConnectRaises then (st, .error "COMError")
  else (emit .camConnect { st with camConnected := true }, .ok ())

/-- SVBonyCamera.set_ascom_settings (lines 36-47): assign ExposureTime, then
assign Gain inside try/except AttributeError — when the driver does not
support Gain the AttributeError is caught and only a warning is printed, so
the call still returns None (full success at the interface). -/
def set_ascom_settings (env : Env) (exposure gain : ℚ) (st : St) : St × Except String Unit :=
  let st1 := emit (.camSetExposure exposure) { st with camExposure := some exposure }
  if env.gainSupported then
    (emit (.camSetGain gain) { st1 with camGain := some gain }, .ok ())
  else
    (st1, .ok ())

/-- SVBonyCamera.set_sdk_settings (lines 74-82): set_exposure then set_gain,
with no exception handling (the hypothetical SDK calls are modelled as
succeeding). -/
def set_sdk_settings (env : Env) (exposure gain : ℚ) (st : St) : St × Except String Unit :=
  let st1 := emit (.camSetExposure exposure) { st with camExposure := some exposure }
  (emit (.camSetGain gain) { st1 with camGain := some gain }, .ok ())

/-- SVBonyCamera.capture_ascom_image (lines 49-63): StartExposure (the
device-level call, which may raise), poll ImageReady, then write the image
file.  The ImageReady poll and the file write change no modelled state. -/
def capture_ascom_image (env : Env) (output_file : String) (st : St) : St × Except String Unit :=
  if env.captureRaises then (st, .error "COMError")
  else (emit (.camCapture output_file) st, .ok ())

/-- SVBonyCamera.capture_sdk_image (lines 84-95): capture_frame; a None
frame only prints an error message — the call returns normally either way. -/
def capture_sdk_image (env : Env) (output_file : String) (st : St) : St × Except String Unit :=
  if env.sdkFrameOk then (emit (.camCapture output_file) st, .ok ())
  else (st, .ok ())

/-- SVBonyCamera.connect_camera (lines 98-103): dispatch on use_ascom. -/
def connect_camera (env : Env) (st : St) : St × Except String Unit :=
  if st.useAscom then connect_ascom_camera env st
  else connect_sdk_camera env st

/-- SVBonyCamera.configure_camera (lines 105-117): raise ConnectionError when
self.connected is False, otherwise dispatch on use_ascom. -/
def configure_camera (env : Env) (exposure gain : ℚ) (st : St) : St × Except String Unit :=
  if !st.camConnected then (st, .error "ConnectionError")
  else if st.useAscom then set_ascom_settings env exposure gain st
  else set_sdk_settings env exposure gain st

/-- SVBonyCamera.capture_image (lines 119-130): raise ConnectionError when
self.connected is False, otherwise dispatch on use_ascom. -/
def capture_image (env : Env) (output_file : String) (st : St) : St × Except String Unit :=
  if !st.camConnected then (st, .error "ConnectionError")
  else if st.useAscom then capture_ascom_image env output_file st
  else capture_sdk_image env output_file st

/-- SVBonyCamera.disconnect_camera (lines 132-140): when self.connected, issue
the device-level disconnect (camera.Connected = False for ASCOM, camera.close()
for the SDK — one device call either way); then set self.connected = False.
If the device call raises, the exception propagates before line 140, so the
connected flag keeps its old value. -/
def disconnect_camera (env : Env) (st : St) : St × Except String Unit :=
  if st.camConnected then
    if env.camDisconnectRaises then (st, .error "COMError")
    else (emit .camDisconnect { st with camConnected := false }, .ok ())
  else
    ({ st with camConnected := false }, .ok ())

/-- AltAzTelescopeController.connect_to_telescope (ascom_telescope.py lines
9-33): the whole body is inside try/except, returning False on any failure
(no driver chosen, or a raising driver call) and True on success.  After a
successful Dispatch, self.telescope is an object even if the later Connected
assignment raises. -/
def connect_to_telescope (env : Env) (st : St) : St × Except String Bool :=
  if !env.chooserDriver then (st, .ok false)
  else
    let st1 := { st with telescopeSome := true }
    if env.telConnectRaises then (st1, .ok false)
    else (emit .telConnect { st1 with telConnected := true }, .ok true)

/-- Catch-all handler for a Python `try ... except Exception` whose handler
only prints: an error outcome becomes a normal return of the given value. -/
def tryCatchAll {α : Type} (r : St × Except String α) (dflt : α) : St × Except String α :=
  match r with
  | (st, .error _) => (st, .ok dflt)
  | (st, .ok a) => (st, .ok a)

/-- The `while self.telescope.Slewing: time.sleep(1)` loop (ascom_telescope.py
lines 48-50), unrolled on the number of polls that still read True: each poll
sleeps one second, during which the mount's remaining motion decreases. -/
def slewWaitAux : ℕ → St → St
  | 0, st => st
  | n + 1, st => slewWaitAux n { st with telSlewingRemaining := st.telSlewingRemaining - 1 }

/-- Wait until the driver's Slewing property reads False. -/
def slewWait (st : St) : St :=
  slewWaitAux st.telSlewingRemaining st

/-- Body of AltAzTelescopeController.slew_to_altaz before its catch-all
handler (lines 43-52): call SlewToAltAz(azimuth, altitude) — AttributeError
when self.telescope is None, or a driver error — then poll Slewing until the
motion has settled. -/
def slew_to_altaz_body (env : Env) (altitude azimuth : ℚ) (st : St) : St × Except String Unit :=
  if !st.telescopeSome then (st, .error "AttributeError")
  else if env.slewRaises then (st, .error "COMError")
  else
    let st1 := emit (.telSlew azimuth altitude) { st with telSlewingRemaining := env.slewDuration }
    (slewWait st1, .ok ())

/-- AltAzTelescopeController.slew_to_altaz (lines 35-54): the body wrapped in
try/except Exception whose handler only prints, so the method always returns
normally. -/
def slew_to_altaz (env : Env) (altitude azimuth : ℚ) (st : St) : St × Except String Unit :=
  tryCatchAll (slew_to_altaz_body env altitude azimuth st) ()

/-- AltAzTelescopeController.disconnect_telescope (lines 56-61):
`if self.telescope and self.telescope.Connected:` issue the device-level
Connected = False. -/
def disconnect_telescope (env : Env) (st : St) : St × Except String Unit :=
  if st.telescopeSome && st.telConnected then
    if env.telDisconnectRaises then (st, .error "COMError")
    else (emit .telDisconnect { st with telConnected := false }, .ok ())
  else (st, .ok ())

/-- PlateSolver.parse_wcs (plate_solver.py lines 45-56): read CRVAL1/CRVAL2
from the WCS file the oracle describes. -/
def parse_wcs (env : Env) : ℚ × ℚ :=
  (env.wcsRa, env.wcsDec)

/-- PlateSolver.solve_image (plate_solver.py lines 21-43).  Local branch: run
solve-field (one solve attempt), then check for the .wcs artifact — parse it
when present, otherwise `raise FileNotFoundError` (line 35).  Remote branch:
upload and monitor, returning the calibration RA/DEC; any error from the
astroquery calls propagates uncaught.  The return value on success is a bare
(ra, dec) pair. -/
def solve_image (env : Env) (localSolver : Bool) (image_path : String) (st : St) :
    St × Except String (ℚ × ℚ) :=
  let st1 := emit (.solveAttempt image_path) st
  if localSolver then
    if env.wcsExists then (st1, .ok (parse_wcs env))
    else (st1, .error "FileNotFoundError")
  else
    if env.remoteRaises then (st1, .error "AstrometryError")
    else (st1, .ok (env.remoteRa, env.remoteDec))

/-- Python try/finally: run the finalizer on the body's final state whatever
the body's outcome; an exception raised by the finalizer replaces the body's
outcome, otherwise the body's outcome stands. -/
def tryFinally (body : St × Except String Unit) (finalizer : St → St × Except String Unit) :
    St × Except String Unit :=
  match body with
  | (st, r) =>
    match finalizer st with
    | (st2, .error e) => (st2, .error e)
    | (st2, .ok _) => (st2, r)

/-- State after line 60-61 of main: SVBonyCamera() (use_ascom defaults to
True) and AltAzTelescopeController() freshly constructed, nothing connected. -/
def initSt : St :=
  { useAscom := true, camConnected := false, camExposure := none, camGain := none,
    telescopeSome := false, telConnected := false, telSlewingRemaining := 0, events := [] }

/-- Lines 70-90 of main (plate_solver.py), the body of its try statement:
configure the camera (the source writes configure_camera(exposure_ms=2000,
gain=50); the parameter is named exposure, so the keyword is modelled as
exposure), capture to plate_solve_image.png, plate-solve it with the local
solver, build the M42 SkyCoord (pure, no device effect), and slew to the
hard-coded simulated target altitude=90.0, azimuth=180.0 — the solved
(ra, dec) is bound at line 77 and never used afterwards. -/
def mainTryBody (env : Env) (st : St) : St × Except String Unit :=
  match configure_camera env 2000 50 st with
  | (st1, .error e) => (st1, .error e)
  | (st1, .ok _) =>
    match capture_image env "plate_solve_image.png" st1 with
    | (st2, .error e) => (st2, .error e)
    | (st2, .ok _) =>
      match solve_image env true "plate_solve_image.png" st2 with
      | (st3, .error e) => (st3, .error e)
      | (st3, .ok _radec) =>
        slew_to_altaz env 90 180 st3

/-- Lines 91-95 of main, the finally block: camera.close_camera() — a method
SVBonyCamera does not define (see svbonyCameraMethods), modelled as the
evidently intended disconnect_camera — then telescope.disconnect_telescope().
The statements run in order with no inner try, so an exception from the
camera disconnect skips the telescope disconnect. -/
def mainCleanup (env : Env) (st : St) : St × Except String Unit :=
  match disconnect_camera env st with
  | (st1, .error e) => (st1, .error e)
  | (st1, .ok _) => disconnect_telescope env st1

/-- Lines 69-95 of main: the try/finally around capture, solve and slew.  In
the source this block is unreachable (the init check at line 65 never
passes — see main below); it is modelled on its own, as entered with the
devices in a caller-supplied state, to settle claims about its body. -/
def mainTryBlock (env : Env) (st : St) : St × Except String Unit :=
  tryFinally (mainTryBody env st) (mainCleanup env)

/-- main (plate_solver.py lines 58-95).  Line 65 evaluates
`not camera.init_camera() or not telescope.connect_to_telescope()` left to
right.  SVBonyCamera defines no init_camera (see svbonyCameraMethods), so in
Python the call raises AttributeError on every run; it is modelled here as
the evidently intended connect_camera.  connect_camera returns None, `not
None` is True, the `or` short-circuits — connect_to_telescope is never
called — and main prints the initialization-failure message and returns
(lines 66-67) without ever reaching the try block or any disconnect. -/
def main (env : Env) : St × Except String Unit :=
  match connect_camera env initSt with
  | (st1, .error e) => (st1, .error e)
  | (st1, .ok _) => (st1, .ok ())

/-- Baseline oracle: every device operation succeeds, the driver supports
gain, the slew settles immediately, solve-field produces a WCS artifact. -/
def envBase : Env :=
  { camConnectRaises := false, gainSupported := true, captureRaises := false,
    sdkFrameOk := true, camDisconnectRaises := false, chooserDriver := true,
    telConnectRaises := false, slewRaises := false, slewDuration := 0,
    telDisconnectRaises := false, wcsExists := true, wcsRa := 0, wcsDec := 0,
    remoteRaises := false, remoteRa := 0, remoteDec := 0 }

/-- Oracle in which the ASCOM driver lacks the Gain property. -/
def envNoGain : Env := { envBase with gainSupported := false }

/-- Oracle in which solve-field never produces a WCS artifact (the solver
fails on every attempt). -/
def envNoWcs : Env := { envBase with wcsExists := false }

/-- Oracle in which the device-level camera disconnect raises. -/
def envDiscRaise : Env := { envBase with camDisconnectRaises := true }

/-- Oracle in which a commanded slew stays in motion for three polls. -/
def envSlew3 : Env := { envBase with slewDuration := 3 }

/-- State with both devices connected and an empty event log. -/
def stReady : St :=
  { useAscom := true, camConnected := true, camExposure := none, camGain := none,
    telescopeSome := true, telConnected := true, telSlewingRemaining := 0, events := [] }

/-- State in which the camera is not connected. -/
def stDisc : St := { stReady with camConnected := false }

theorem slewWaitAux_spec (n : ℕ) (st : St) :
    slewWaitAux n st = { st with telSlewingRemaining := st.telSlewingRemaining - n } := by
  induction n generalizing st with
  | zero => simp [slewWaitAux]
  | succ k ih =>
    rw [slewWaitAux, ih]
    simp [Nat.sub_sub, Nat.add_comm]

theorem slewWait_spec (st : St) : slewWait st = { st with telSlewingRemaining := 0 } := by
  rw [slewWait, slewWaitAux_spec]
  simp

/-- C1: main never disconnects either device.  SVBonyCamera defines neither
init_camera nor close_camera (the names main uses at lines 65 and 93), and
even under the charitable reading of init_camera as connect_camera, main
always takes the initialization-failure early return (connect_camera returns
None, which is falsy), so on every run both devices record zero disconnect
calls — not the exactly-one the cleanup guarantee demands. -/
theorem main_never_disconnects_devices (env : Env) :
    svbonyCameraMethods.contains "init_camera" = false ∧
    svbonyCameraMethods.contains "close_camera" = false ∧
    countEv .camDisconnect (main env).1.events = 0 ∧
    countEv .telDisconnect (main env).1.events = 0 := by
  refine ⟨by decide, by decide, ?_, ?_⟩ <;>
    cases h : env.camConnectRaises <;>
      simp [main, connect_camera, connect_ascom_camera, connect_sdk_camera,
        emit, countEv, initSt, h] <;> decide

/-- C2: the position commanded to the mount by the session body is the
hard-coded simulated pair altitude 90°, azimuth 180°, whatever position the
solver reports: for every solved (ra, dec) the body issues exactly the slew
command (azimuth 180, altitude 90). -/
theorem mainTryBlock_slew_command_constant (ra dec : ℚ) :
    slewEvents ((mainTryBlock { envBase with wcsRa := ra, wcsDec := dec } stReady).1.events)
      = [(180, 90)] := by
  rfl

/-- C3 counterexample: with the local solver selected and no WCS artifact
produced, solve_image raises FileNotFoundError to its caller instead of
returning a Failed value. -/
theorem solve_image_raises_cex :
    (solve_image envNoWcs true "plate_solve_image.png" stReady).2
      = .error "FileNotFoundError" := by
  rfl

/-- C3 (amended): solve_image in local mode returns the bare parsed (ra, dec)
pair when the WCS artifact exists and raises FileNotFoundError when it does
not; there is no tagged SolveResult and no timeout normalization. -/
theorem solve_image_outcome (env : Env) (p : String) (st : St) :
    (solve_image env true p st).2 =
      if env.wcsExists then .ok (env.wcsRa, env.wcsDec) else .error "FileNotFoundError" := by
  cases h : env.wcsExists <;> simp [solve_image, parse_wcs, emit, h]

/-- C4 counterexample: with a solver that fails on every attempt, the session
body performs exactly one solve attempt and terminates by propagating
FileNotFoundError — not three attempts, and no Aborted result. -/
theorem solver_no_retry_cex :
    countEv (.solveAttempt "plate_solve_image.png")
        ((mainTryBlock envNoWcs stReady).1.events) = 1 ∧
    (mainTryBlock envNoWcs stReady).2 = .error "FileNotFoundError" := by
  exact ⟨rfl, rfl⟩

/-- C4 (amended): whenever the solver produces no WCS artifact, the session
body makes exactly one solve attempt (there is no retry loop or failure
counter) and terminates by propagating the solver's FileNotFoundError
through the finally block. -/
theorem solver_failure_single_attempt (env : Env) (st : St)
    (h1 : st.useAscom = true) (h2 : st.camConnected = true)
    (h3 : env.captureRaises = false) (h4 : env.wcsExists = false)
    (h5 : env.camDisconnectRaises = false) (h6 : env.telDisconnectRaises = false) :
    countEv (.solveAttempt "plate_solve_image.png") ((mainTryBlock env st).1.events)
      = countEv (.solveAttempt "plate_solve_image.png") st.events + 1 ∧
    (mainTryBlock env st).2 = .error "FileNotFoundError" := by
  cases hg : env.gainSupported <;> cases hts : st.telescopeSome <;>
    cases htc : st.telConnected <;>
      simp [mainTryBlock, mainTryBody, mainCleanup, tryFinally, configure_camera,
        set_ascom_settings, capture_image, capture_ascom_image, solve_image,
        disconnect_camera, disconnect_telescope, emit, countEv, parse_wcs,
        h1, h2, h3, h4, h5, h6, hg, hts, htc, List.filter_append] <;> decide

/-- C4 witness: the amended theorem applied to the always-failing solver
oracle and the connected initial state. -/
theorem solver_failure_single_attempt_witness :
    countEv (.solveAttempt "plate_solve_image.png")
        ((mainTryBlock envNoWcs stReady).1.events)
      = countEv (.solveAttempt "plate_solve_image.png") stReady.events + 1 ∧
    (mainTryBlock envNoWcs stReady).2 = .error "FileNotFoundError" :=
  solver_failure_single_attempt envNoWcs stReady rfl rfl rfl rfl rfl rfl

/-- C5 counterexample: configuring with a driver that lacks Gain returns the
plain success value None — exactly the value returned when gain is fully
supported — so no PartiallyApplied status reaches the caller. -/
theorem configure_no_partial_status_cex :
    (configure_camera envNoGain 2 50 stReady).2 = .ok () ∧
    (configure_camera envNoGain 2 50 stReady).2
      = (configure_camera envBase 2 50 stReady).2 := by
  exact ⟨rfl, rfl⟩

/-- C5 (amended): when the ASCOM driver does not support gain, configure_camera
does not fail as a whole — the exposure is applied and the AttributeError from
the gain assignment is caught with only a warning — but the call returns None,
indistinguishable from full application; no PartiallyApplied status exists. -/
theorem configure_gain_unsupported_silent (env : Env) (e g : ℚ) (st : St)
    (h1 : st.camConnected = true) (h2 : st.useAscom = true)
    (h3 : env.gainSupported = false) :
    (configure_camera env e g st).2 = .ok () ∧
    (configure_camera env e g st).1.camExposure = some e ∧
    (configure_camera env e g st).1.camGain = st.camGain ∧
    (configure_camera env e g st).2
      = (configure_camera { env with gainSupported := true } e g st).2 := by
  simp [configure_camera, set_ascom_settings, emit, h1, h2, h3]

/-- C5 witness: the amended theorem at the gain-less oracle and the connected
state. -/
theorem configure_gain_unsupported_silent_witness :
    (configure_camera envNoGain 2 50 stReady).2 = .ok () ∧
    (configure_camera envNoGain 2 50 stReady).1.camExposure = some 2 ∧
    (configure_camera envNoGain 2 50 stReady).1.camGain = stReady.camGain ∧
    (configure_camera envNoGain 2 50 stReady).2
      = (configure_camera { envNoGain with gainSupported := true } 2 50 stReady).2 :=
  configure_gain_unsupported_silent envNoGain 2 50 stReady rfl rfl rfl

/-- C6: whenever the telescope object exists and the SlewToAltAz call itself
does not raise, slew_to_altaz returns only after the driver's Slewing status
has become false (the remaining motion is zero on return) and the call
completes normally — no caller can run while the slew is still in flight. -/
theorem slew_returns_only_after_settled (env : Env) (altitude azimuth : ℚ) (st : St)
    (h1 : st.telescopeSome = true) (h2 : env.slewRaises = false) :
    (slew_to_altaz env altitude azimuth st).1.telSlewingRemaining = 0 ∧
    (slew_to_altaz env altitude azimuth st).2 = .ok () := by
  simp [slew_to_altaz, slew_to_altaz_body, tryCatchAll, slewWait_spec, emit, h1, h2]

/-- C6 witness: a slew that stays in motion for three polls has settled by
the time slew_to_altaz returns. -/
theorem slew_returns_only_after_settled_witness :
    (slew_to_altaz envSlew3 45 90 stReady).1.telSlewingRemaining = 0 ∧
    (slew_to_altaz envSlew3 45 90 stReady).2 = .ok () :=
  slew_returns_only_after_settled envSlew3 45 90 stReady rfl rfl

/-- C7: on a disconnected camera, configure_camera and capture_image raise
ConnectionError with the state untouched (no device-level call is issued);
on a connected camera the connection check never fires — whatever else
happens, the outcome is never that ConnectionError. -/
theorem camera_ops_require_connection (env : Env) (e g : ℚ) (f : String) (st : St) :
    (st.camConnected = false →
       configure_camera env e g st = (st, .error "ConnectionError") ∧
       capture_image env f st = (st, .error "ConnectionError")) ∧
    (st.camConnected = true →
       (configure_camera env e g st).2 ≠ Except.error "ConnectionError" ∧
       (capture_image env f st).2 ≠ Except.error "ConnectionError") := by
  constructor
  · intro h
    simp [configure_camera, capture_image, h]
  · intro h
    cases hu : st.useAscom <;> cases hg : env.gainSupported <;>
      cases hc : env.captureRaises <;> cases hs : env.sdkFrameOk <;>
        simp [configure_camera, capture_image, set_ascom_settings, set_sdk_settings,
          capture_ascom_image, capture_sdk_image, emit, h, hu, hg, hc, hs]

/-- C7 witness: the connection check fires on a disconnected camera. -/
theorem camera_ops_require_connection_witness :
    configure_camera envBase 2 50 stDisc = (stDisc, .error "ConnectionError") ∧
    capture_image envBase "plate_solve_image.png" stDisc
      = (stDisc, .error "ConnectionError") :=
  (camera_ops_require_connection envBase 2 50 "plate_solve_image.png" stDisc).1 rfl

/-- C9: slew_to_altaz never propagates an error: for every oracle, state and
target, the call returns normally (the catch-all handler at lines 53-54 of
ascom_telescope.py swallows every exception, including AttributeError on a
never-connected telescope and any driver failure), so the caller cannot tell
a completed slew from a failed one by the call's outcome. -/
theorem slew_never_propagates (env : Env) (altitude azimuth : ℚ) (st : St) :
    (slew_to_altaz env altitude azimuth st).2 = .ok () := by
  cases h1 : st.telescopeSome <;> cases h2 : env.slewRaises <;>
    simp [slew_to_altaz, slew_to_altaz_body, tryCatchAll, slewWait_spec, emit, h1, h2]

/-- C10 counterexample: if the camera is connected and the device-level
disconnect raises, disconnect_camera propagates the exception and the
connected flag remains True — the flag is not False after every call. -/
theorem disconnect_flag_stays_true_cex :
    (disconnect_camera envDiscRaise stReady).1.camConnected = true ∧
    (disconnect_camera envDiscRaise stReady).2 = .error "COMError" := by
  exact ⟨rfl, rfl⟩

/-- C10 (amended): whenever the device-level disconnect does not raise, after
disconnect_camera the connected flag is False regardless of its prior state
and the call succeeds; and on a camera that is not connected the call issues
no device operation at all (the state changes only by the flag write) and
cannot fail, for every oracle — so repeated disconnects are safe. -/
theorem disconnect_camera_flag_and_noop (env : Env) (st : St) :
    (env.camDisconnectRaises = false →
       (disconnect_camera env st).1.camConnected = false ∧
       (disconnect_camera env st).2 = .ok ()) ∧
    (st.camConnected = false →
       disconnect_camera env st = ({ st with camConnected := false }, .ok ())) := by
  constructor
  · intro h
    cases hc : st.camConnected <;> simp [disconnect_camera, emit, h, hc]
  · intro h
    simp [disconnect_camera, h]

/-- C10 witness: the amended theorem at the benign oracle and the
disconnected state. -/
theorem disconnect_camera_flag_and_noop_witness :
    (disconnect_camera envBase stDisc).1.camConnected = false ∧
    disconnect_camera envBase stDisc = ({ stDisc with camConnected := false }, .ok ()) :=
  ⟨((disconnect_camera_flag_and_noop envBase stDisc).1 rfl).1,
   (disconnect_camera_flag_and_noop envBase stDisc).2 rfl⟩

end AstroControl
